import Mathlib

/-!
Shallow embedding of `recording_mod_native` (src/src/lib.rs), a JNI bridge that
feeds caller-owned YUV planes through a libx264 encoder into a container file.

The codec/container library (ffmpeg) is an external collaborator, out of scope
of the repository; every interaction with it (opening the output, adding a
stream, opening the encoder, receiving packets, writing packets, writing the
header/trailer) is represented by explicit oracle parameters giving the
library's responses, and its observable per-call effects (packets written into
the container) are returned explicitly.  The `static mut RENDERER_STATE`
global is embedded by explicit state passing of an `Option Renderer`.
-/

namespace RecordingMod

/-- Raw pointer addresses (the module only stores and compares them). -/
abbrev Ptr := Nat

/-- `ffmpeg_next::Rational` — a pair of i32s, numerator first
(`Rational(90000, 1)` is the rational 90000/1). -/
structure Rational where
  num : Int
  den : Int
deriving DecidableEq

/-- `Rational::invert` swaps numerator and denominator. -/
def Rational.invert (r : Rational) : Rational := Rational.mk r.den r.num

/-- Modelled from the spec: the library's timestamp rescale used at
src/src/lib.rs:132-133 (`i64::rescale(bq, cq)`, i.e. `av_rescale_q`), which the
spec describes as "exact rational conversion of a timestamp from one time base
to another", "multiply-then-divide with rounding, not floating point", rounding
to nearest.  For a value `a` in time base `bq` the value in time base `cq` is
`a * (bq.num*cq.den) / (bq.den*cq.num)` rounded to nearest (ties away from
zero); for the nonnegative products this program produces this is
`(a*b + c/2) / c` on integers. -/
def av_rescale_q (a : Int) (bq cq : Rational) : Int :=
  (a * (bq.num * cq.den) + bq.den * cq.num / 2) / (bq.den * cq.num)

/-- Pixel formats used by the module (src: `Pixel::YUV444P`). -/
inductive Pixel
  | YUV444P
deriving DecidableEq

/-- Color ranges used by the module (src: `Range::JPEG`). -/
inductive Range
  | JPEG
deriving DecidableEq

/-- The three plane pointers and the fields of an `AVFrame` this module
touches: `data[0..2]`, the pts, pixel format and color range. -/
structure AVFrame where
  data0 : Ptr
  data1 : Ptr
  data2 : Ptr
  pts : Option Int
  format : Pixel
  color_range : Range
deriving DecidableEq

/-- src/src/lib.rs:21-24: a frame object plus the recorded original (self
owned) plane pointers. -/
structure JavaFrame where
  av_frame : AVFrame
  original_yuv : Ptr × Ptr × Ptr
deriving DecidableEq

/-- src/src/lib.rs:29-63 (`JavaFrame::new`): allocate a YUV444P/JPEG frame
(the library picks the plane addresses, oracle `alloc`), record the three
self-owned plane pointers, then overwrite them with the JVM buffer addresses.
No pixel bytes are copied anywhere. -/
def JavaFrame.new (width height : Nat) (jvm_y_channel jvm_u_channel jvm_v_channel : Ptr)
    (alloc : Ptr × Ptr × Ptr) : JavaFrame :=
  let av_frame : AVFrame :=
    { data0 := alloc.1, data1 := alloc.2.1, data2 := alloc.2.2
      pts := none, format := Pixel.YUV444P, color_range := Range.JPEG }
  -- Store the original yuv buffers for later cleanup
  let original_yuv := (av_frame.data0, av_frame.data1, av_frame.data2)
  -- Change the underlying buffer that's in use by these frames
  let av_frame :=
    { av_frame with
        data0 := jvm_y_channel, data1 := jvm_u_channel, data2 := jvm_v_channel }
  { av_frame := av_frame, original_yuv := original_yuv }

/-- src/src/lib.rs:242-252 (`impl Drop for JavaFrame`): before the frame
object's own deallocation runs, the three recorded original pointers are
restored into `data[0..2]`. -/
def JavaFrame.drop (f : JavaFrame) : JavaFrame :=
  let (y, u, v) := f.original_yuv
  { f with av_frame := { f.av_frame with data0 := y, data1 := u, data2 := v } }

/-- src/src/lib.rs:15-19: the option dictionary for the standard profile. -/
def OPTS : List (String × String) :=
  [("preset", "ultrafast"), ("profile", "high444"), ("crf", "16")]

/-- src/src/lib.rs:100-108: the inline option triplet used when `is_proxy`. -/
def proxy_opts : List (String × String) :=
  [("preset", "ultrafast"), ("profile", "high444"), ("crf", "28")]

/-- src/src/lib.rs:100-108: the dictionary handed to `encoder.open_with` is
chosen by `is_proxy` alone. -/
def encoder_opts (is_proxy : Bool) : List (String × String) :=
  if is_proxy then proxy_opts else OPTS

/-- The encoder configuration this module sets on the codec handle
(src/src/lib.rs:90-98 and the dictionary of `open_with`). -/
structure EncoderCfg where
  width : Nat
  height : Nat
  format : Pixel
  color_range : Range
  frame_rate : Rational
  time_base : Rational
  flag_global_header : Bool
  opts : List (String × String)
deriving DecidableEq

/-- src/src/lib.rs:66-74: the `Renderer` struct.  The `encoder` and `octx`
library handles are represented by the configuration snapshot and by the
oracle/effect parameters of the operations. -/
structure Renderer where
  frame_a : JavaFrame
  frame_b : JavaFrame
  frame_index : Nat
  frame_rate : Rational
  encoder : EncoderCfg
  stream_time_base : Rational
deriving DecidableEq

/-- Library responses consumed by `Renderer::new`, one per fallible call, in
source order (src/src/lib.rs:86-118). -/
structure NewOracle where
  open_output : Bool
  global_header : Bool
  add_stream : Bool
  enc_video0 : Bool
  open_with : Bool
  enc_video1 : Bool
  enc_video2 : Bool
  write_header : Bool
  stream0_time_base : Option Rational
deriving DecidableEq

/-- src/src/lib.rs:77-129 (`Renderer::new`): open the output, add a stream,
configure and open the encoder with the profile's dictionary, re-fetch the
negotiated parameters, write the header, then record the stream time base
(`octx.stream(0).map_or(Rational(90000, 1), |s| s.time_base())`).  Every `?`
of the source is a short-circuit on the corresponding oracle flag. -/
def Renderer.new (output_file : String) (width height : Nat) (frame_rate : Rational)
    (frame_a frame_b : JavaFrame) (is_proxy : Bool) (o : NewOracle) :
    Except Unit Renderer :=
  if o.open_output then
    let global_header := o.global_header
    if o.add_stream then
      if o.enc_video0 then
        let encoder : EncoderCfg :=
          { width := width, height := height, format := Pixel.YUV444P
            color_range := Range.JPEG, frame_rate := frame_rate
            time_base := frame_rate.invert
            flag_global_header := global_header, opts := [] }
        if o.open_with then
          let encoder := { encoder with opts := encoder_opts is_proxy }
          if o.enc_video1 then
            -- ost.set_parameters(encoder); re-fetch the encoder handle
            if o.enc_video2 then
              -- output::dump is logging only
              if o.write_header then
                let stream_time_base :=
                  (o.stream0_time_base).getD (Rational.mk 90000 1)
                Except.ok
                  { frame_a := frame_a, frame_b := frame_b, frame_index := 0
                    frame_rate := frame_rate, encoder := encoder
                    stream_time_base := stream_time_base }
              else Except.error ()
            else Except.error ()
          else Except.error ()
        else Except.error ()
      else Except.error ()
    else Except.error ()
  else Except.error ()

/-- The fields of an `AVPacket` this module touches: the stream index
(`Packet::set_stream`) and an opaque tag standing for the compressed payload
the encoder produced (untouched by this module). -/
structure Packet where
  stream_index : Nat
  payload : Nat
deriving DecidableEq

/-- `Packet::set_stream`. -/
def Packet.set_stream (p : Packet) (i : Nat) : Packet := { p with stream_index := i }

/-- The error `receive_packet` ends a drain loop with: "try again"/EOF (no
packet ready) or any other encoder error.  Both loops test only `is_ok()`. -/
inductive RecvErr
  | again
  | eof
  | other
deriving DecidableEq

/-- src/src/lib.rs:150-160: the drain loop of `send_frame`.  The oracle lists,
for each successful `receive_packet`, the delivered packet and the result of
`write_interleaved`; the list ends where `receive_packet` first errors.  Each
packet is tagged with `set_stream(0)` before the write; a failed write stops
the loop with failure; already-written packets are not rolled back. -/
def drain_write : List (Packet × Bool) → Bool × List Packet
  | [] => (true, [])
  | (p, write_ok) :: rest =>
    let tagged := p.set_stream 0
    if write_ok then
      let r := drain_write rest
      (r.1, tagged :: r.2)
    else (false, [])

/-- src/src/lib.rs:132-133: the pts computed for the frame about to be
submitted. -/
def Renderer.send_frame_pts (r : Renderer) : Int :=
  av_rescale_q (Int.ofNat r.frame_index) r.frame_rate.invert r.stream_time_base

/-- src/src/lib.rs:131-166 (`Renderer::send_frame`): compute the pts, pick
frame a or b, stamp the pts on it, send it to the encoder (oracle `send_ok`),
drain ready packets (oracle `drain`, ending at the first `receive_packet`
error `stop`), and only on full success advance `frame_index`.  Returns the
new state, the Bool result, and the packets written into the container. -/
def Renderer.send_frame (r : Renderer) (use_bufer_b : Bool) (send_ok : Bool)
    (drain : List (Packet × Bool)) (stop : RecvErr) :
    Renderer × Bool × List Packet :=
  let pts := r.send_frame_pts
  let r1 :=
    if use_bufer_b then
      { r with frame_b := { r.frame_b with av_frame := { r.frame_b.av_frame with pts := some pts } } }
    else
      { r with frame_a := { r.frame_a with av_frame := { r.frame_a.av_frame with pts := some pts } } }
  if send_ok then
    let d := drain_write drain
    if d.1 then
      ({ r1 with frame_index := r1.frame_index + 1 }, true, d.2)
    else (r1, false, d.2)
  else (r1, false, [])

/-- src/src/lib.rs:171-173: the drain loop of `finish_render`.  Identical to
`drain_write` except that the source performs no `set_stream` here: each
packet is written exactly as received, and a write failure propagates (`?`). -/
def finish_drain : List (Packet × Bool) → Bool × List Packet
  | [] => (true, [])
  | (p, write_ok) :: rest =>
    if write_ok then
      let r := finish_drain rest
      (r.1, p :: r.2)
    else (false, [])

/-- Observable outcome of `finish_render`: the overall result, the packets
written into the container while draining, and whether the trailer write was
reached. -/
structure FinishOutcome where
  ok : Bool
  written : List Packet
  trailer_attempted : Bool
deriving DecidableEq

/-- src/src/lib.rs:168-177 (`Renderer::finish_render`): `send_eof()?`, then
drain remaining packets with write failures propagated, then
`write_trailer()?`. -/
def Renderer.finish_render (_r : Renderer) (eof_ok : Bool)
    (drain : List (Packet × Bool)) (trailer_ok : Bool) : FinishOutcome :=
  if eof_ok then
    let d := finish_drain drain
    if d.1 then
      { ok := trailer_ok, written := d.2, trailer_attempted := true }
    else
      { ok := false, written := d.2, trailer_attempted := false }
  else { ok := false, written := [], trailer_attempted := false }

/-- src/src/lib.rs:183-213 (`startEncode` entry point): build the two
JavaFrames, then `RENDERER_STATE = Renderer::new(..., Rational(fps, 1), ...)
.ok()`, returning `is_some`.  The previous registry content is replaced
wholesale.  Returns the new registry slot and the Bool result. -/
def Java_me_aris_recordingmod_RendererKt_startEncode
    (_prev : Option Renderer) (file : String) (width height : Nat) (fps : Int)
    (y_a u_a v_a y_b u_b v_b : Ptr) (alloc_a alloc_b : Ptr × Ptr × Ptr)
    (is_proxy : Bool) (o : NewOracle) : Option Renderer × Bool :=
  let frame_a := JavaFrame.new width height y_a u_a v_a alloc_a
  let frame_b := JavaFrame.new width height y_b u_b v_b alloc_b
  let st :=
    (Renderer.new file width height (Rational.mk fps 1) frame_a frame_b is_proxy o).toOption
  (st, st.isSome)

/-- src/src/lib.rs:216-228 (`sendFrame` entry point): if a session is open,
run `send_frame` on it; otherwise return `true` without touching anything.
Returns the new registry slot, the Bool result, and the packets written. -/
def Java_me_aris_recordingmod_RendererKt_sendFrame
    (reg : Option Renderer) (use_bufer_b : Bool) (send_ok : Bool)
    (drain : List (Packet × Bool)) (stop : RecvErr) :
    Option Renderer × Bool × List Packet :=
  match reg with
  | some r =>
    let res := r.send_frame use_bufer_b send_ok drain stop
    (some res.1, res.2.1, res.2.2)
  | none => (none, true, [])

/-- src/src/lib.rs:231-240 (`finishEncode` entry point): if a session is open,
run `finish_render` and discard its result; then set the registry to `None`
unconditionally.  Returns the new registry slot and the packets written while
flushing. -/
def Java_me_aris_recordingmod_RendererKt_finishEncode
    (reg : Option Renderer) (eof_ok : Bool) (drain : List (Packet × Bool))
    (trailer_ok : Bool) : Option Renderer × List Packet :=
  match reg with
  | some r => (none, (r.finish_render eof_ok drain trailer_ok).written)
  | none => (none, [])

/-- Spec-side definition, from the spec's words only (§4.3 step 1 / §8): the
pts of frame `i` is `round(i * streamTimeBase⁻¹ * frameRate⁻¹)` computed on
exact rationals. -/
def spec_pts (i : Nat) (frame_rate stream_time_base : Rational) : Int :=
  round ((i : ℚ) * ((stream_time_base.den : ℚ) / (stream_time_base.num : ℚ)) *
    ((frame_rate.den : ℚ) / (frame_rate.num : ℚ)))

/-! ### Arithmetic facts about the rounded rescale -/

/-- Round-to-nearest of `m/n` written `(m + n/2)/n` equals the symmetric form
`(2m + n)/(2n)`. -/
theorem nat_half_round_eq (m n : Nat) :
    (m + n / 2) / n = (2 * m + n) / (2 * n) := by
  rw [← Nat.div_div_eq_div_mul]
  have h : (2 * m + n) / 2 = m + n / 2 := by omega
  rw [h]

/-- On nonnegative operands, `av_rescale_q` over the inverted frame rate is a
Nat computation. -/
theorem av_rescale_toNat (i : Nat) (fr tb : Rational) (B C : Nat)
    (hB : (B : Int) = fr.den * tb.den) (hC : (C : Int) = fr.num * tb.num) :
    av_rescale_q (Int.ofNat i) fr.invert tb = ((i * B + C / 2) / C : Nat) := by
  show ((Int.ofNat i) * (fr.den * tb.den) + fr.num * tb.num / 2) / (fr.num * tb.num)
      = ((i * B + C / 2) / C : Nat)
  rw [← hB, ← hC]
  push_cast
  rfl

/-- The rescale the source performs agrees with the spec's
`round(i * streamTimeBase⁻¹ * frameRate⁻¹)` on exact rationals, for positive
frame rate and time base. -/
theorem av_rescale_eq_spec (i : Nat) (fr tb : Rational)
    (hfn : 0 < fr.num) (hfd : 0 < fr.den) (htn : 0 < tb.num) (htd : 0 < tb.den) :
    av_rescale_q (Int.ofNat i) fr.invert tb = spec_pts i fr tb := by
  obtain ⟨B, hB⟩ : ∃ B : Nat, (B : Int) = fr.den * tb.den :=
    ⟨(fr.den * tb.den).toNat, Int.toNat_of_nonneg (by positivity)⟩
  obtain ⟨C, hC⟩ : ∃ C : Nat, (C : Int) = fr.num * tb.num :=
    ⟨(fr.num * tb.num).toNat, Int.toNat_of_nonneg (by positivity)⟩
  have hCpos : 0 < C := by
    have : (0 : Int) < C := hC ▸ by positivity
    exact_mod_cast this
  have hR : spec_pts i fr tb = (((2 * (i * B) + C) / (2 * C) : Nat) : Int) := by
    unfold spec_pts
    rw [round_eq]
    have hfn' : (fr.num : ℚ) ≠ 0 := by exact_mod_cast hfn.ne'
    have htn' : (tb.num : ℚ) ≠ 0 := by exact_mod_cast htn.ne'
    have hBq : ((B : ℚ)) = (fr.den : ℚ) * (tb.den : ℚ) := by exact_mod_cast hB
    have hCq : ((C : ℚ)) = (fr.num : ℚ) * (tb.num : ℚ) := by exact_mod_cast hC
    have hx : (i : ℚ) * ((tb.den : ℚ) / (tb.num : ℚ)) * ((fr.den : ℚ) / (fr.num : ℚ))
        + 1 / 2 = ((2 * (i * B) + C : Nat) : ℚ) / ((2 * C : Nat) : ℚ) := by
      have hCq' : ((C : ℚ)) ≠ 0 := by
        exact_mod_cast hCpos.ne'
      field_simp
      push_cast [hBq, hCq]
      ring
    rw [hx, Rat.floor_natCast_div_natCast]
    push_cast
    rfl
  rw [av_rescale_toNat i fr tb B C hB hC, hR, nat_half_round_eq]

/-- Strict growth of the rounded division when the numerator step `B` is at
least the divisor `C`. -/
theorem nat_rescale_lt (m B C : Nat) (hC : 0 < C) (hBC : C ≤ B) :
    (m * B + C / 2) / C < ((m + 1) * B + C / 2) / C := by
  have hexp : (m + 1) * B + C / 2 = m * B + C / 2 + B := by ring
  have hle : m * B + C / 2 + C ≤ (m + 1) * B + C / 2 := by
    rw [hexp]
    exact Nat.add_le_add_left hBC _
  have h1 : (m * B + C / 2 + C) / C = (m * B + C / 2) / C + 1 := Nat.add_div_right _ hC
  have h2 : (m * B + C / 2 + C) / C ≤ ((m + 1) * B + C / 2) / C := Nat.div_le_div_right hle
  linarith

/-- Strict monotonicity of the rescaled pts in the frame index, as long as the
stream time base is at most one frame duration (`tb ≤ 1/fr`, cross-multiplied
as `tb.num * fr.num ≤ tb.den * fr.den`). -/
theorem av_rescale_mono (i : Nat) (fr tb : Rational)
    (hfn : 0 < fr.num) (hfd : 0 < fr.den) (htn : 0 < tb.num) (htd : 0 < tb.den)
    (hfine : tb.num * fr.num ≤ tb.den * fr.den) :
    av_rescale_q (Int.ofNat i) fr.invert tb < av_rescale_q (Int.ofNat (i + 1)) fr.invert tb := by
  obtain ⟨B, hB⟩ : ∃ B : Nat, (B : Int) = fr.den * tb.den :=
    ⟨(fr.den * tb.den).toNat, Int.toNat_of_nonneg (by positivity)⟩
  obtain ⟨C, hC⟩ : ∃ C : Nat, (C : Int) = fr.num * tb.num :=
    ⟨(fr.num * tb.num).toNat, Int.toNat_of_nonneg (by positivity)⟩
  have hCpos : 0 < C := by
    have : (0 : Int) < C := hC ▸ by positivity
    exact_mod_cast this
  have hBC : C ≤ B := by
    have : (C : Int) ≤ (B : Int) := by
      rw [hB, hC]
      calc fr.num * tb.num = tb.num * fr.num := by ring
        _ ≤ tb.den * fr.den := hfine
        _ = fr.den * tb.den := by ring
    exact_mod_cast this
  rw [av_rescale_toNat i fr tb B C hB hC, av_rescale_toNat (i + 1) fr tb B C hB hC]
  exact_mod_cast nat_rescale_lt i B C hCpos hBC

/-! ### Concrete sample states -/

/-- A concrete aliased frame used to build sample session states. -/
def frame0 : JavaFrame := JavaFrame.new 16 16 101 102 103 (11, 12, 13)

/-- A concrete encoder configuration used to build sample session states. -/
def cfg0 : EncoderCfg :=
  { width := 16, height := 16, format := Pixel.YUV444P, color_range := Range.JPEG
    frame_rate := Rational.mk 30 1, time_base := Rational.mk 1 30
    flag_global_header := false, opts := OPTS }

/-- A 30 fps session whose container negotiated a stream time base (1/10)
coarser than one frame duration (1/30). -/
def renderer_coarse : Renderer :=
  { frame_a := frame0, frame_b := frame0, frame_index := 0
    frame_rate := Rational.mk 30 1, encoder := cfg0
    stream_time_base := Rational.mk 1 10 }

/-- A 30 fps session with the usual fine 1/15360 mp4 stream time base. -/
def renderer_fine : Renderer :=
  { frame_a := frame0, frame_b := frame0, frame_index := 7
    frame_rate := Rational.mk 30 1, encoder := cfg0
    stream_time_base := Rational.mk 1 15360 }

/-! ### C1 -/

/-- C1 (counterexample): the claim "the resulting PTS sequence over successive
successful submissions is strictly increasing" is false as stated.  At 30 fps
with a negotiated stream time base of 1/10, the first submission succeeds and
advances the frame index, yet the pts the session computes for the next
submission equals the pts of the first (both are 0): the sequence is not
strictly increasing.  Nothing in the code constrains the negotiated time base
relative to the frame rate. -/
theorem C1_counterexample :
    (renderer_coarse.send_frame false true [] RecvErr.again).2.1 = true ∧
    ((renderer_coarse.send_frame false true [] RecvErr.again).1).frame_index
      = renderer_coarse.frame_index + 1 ∧
    ((renderer_coarse.send_frame false true [] RecvErr.again).1).send_frame_pts
      = renderer_coarse.send_frame_pts := by
  decide

/-- C1 (amended): for every session state with positive frame rate and stream
time base, the pts `send_frame` computes and stamps on the submitted frame
equals the exact rational rescale `round(i * streamTimeBase⁻¹ * frameRate⁻¹)`
(multiply-then-divide with rounding, no floating point); and provided the
stream time base is at most one frame duration (`tb ≤ 1/frameRate`,
cross-multiplied below — true of every real container, e.g. 1/15360 or
1/90000), every successful submission strictly increases the pts, so the PTS
sequence over successive successful submissions is strictly increasing. -/
theorem C1_pts_exact_rescale_and_monotone (r : Renderer)
    (hfn : 0 < r.frame_rate.num) (hfd : 0 < r.frame_rate.den)
    (htn : 0 < r.stream_time_base.num) (htd : 0 < r.stream_time_base.den) :
    r.send_frame_pts = spec_pts r.frame_index r.frame_rate r.stream_time_base ∧
    (∀ s d e, ((r.send_frame true s d e).1).frame_b.av_frame.pts = some r.send_frame_pts ∧
      ((r.send_frame false s d e).1).frame_a.av_frame.pts = some r.send_frame_pts) ∧
    (r.stream_time_base.num * r.frame_rate.num
        ≤ r.stream_time_base.den * r.frame_rate.den →
      ∀ b s d e, (r.send_frame b s d e).2.1 = true →
        r.send_frame_pts < ((r.send_frame b s d e).1).send_frame_pts) := by
  refine ⟨av_rescale_eq_spec _ _ _ hfn hfd htn htd, ?_, ?_⟩
  · intro s d e
    constructor <;>
      · cases s
        · rfl
        · rcases hd : (drain_write d).1 <;> simp [Renderer.send_frame, hd]
  · intro hfine b s d e hsucc
    cases b <;> cases s <;>
      rcases hd : (drain_write d).1 <;>
      simp [Renderer.send_frame, hd, Renderer.send_frame_pts] at hsucc ⊢ <;>
      exact av_rescale_mono r.frame_index r.frame_rate r.stream_time_base
        hfn hfd htn htd hfine

/-- C1 (witness): the amended theorem applied to the 1/15360 session. -/
theorem C1_pts_exact_rescale_and_monotone_witness :
    renderer_fine.send_frame_pts
      = spec_pts renderer_fine.frame_index renderer_fine.frame_rate
          renderer_fine.stream_time_base ∧
    ((renderer_fine.send_frame false true [] RecvErr.again).1).frame_a.av_frame.pts
      = some renderer_fine.send_frame_pts ∧
    renderer_fine.send_frame_pts
      < ((renderer_fine.send_frame false true [] RecvErr.again).1).send_frame_pts :=
  ⟨(C1_pts_exact_rescale_and_monotone renderer_fine (by decide) (by decide)
      (by decide) (by decide)).1,
   ((C1_pts_exact_rescale_and_monotone renderer_fine (by decide) (by decide)
      (by decide) (by decide)).2.1 true [] RecvErr.again).2,
   (C1_pts_exact_rescale_and_monotone renderer_fine (by decide) (by decide)
      (by decide) (by decide)).2.2 (by decide) false true [] RecvErr.again (by decide)⟩

/-! ### C2 -/

/-- Library responses for a fully successful session open where the container
reports stream 0 with time base 1/15360. -/
def oracle_ok : NewOracle :=
  { open_output := true, global_header := false, add_stream := true
    enc_video0 := true, open_with := true, enc_video1 := true
    enc_video2 := true, write_header := true
    stream0_time_base := some (Rational.mk 1 15360) }

/-- Library responses for a successful session open where the container does
not report a stream 0 time base. -/
def oracle_nostream : NewOracle := { oracle_ok with stream0_time_base := none }

/-- C2: evaluation of `Renderer::new` at the failing input.  After the header
is written the session does record the stream's negotiated time base when the
container reports one (first conjunct).  But on the failing input — the
container reports no stream 0 — the recorded default is the rational 90000/1
(the source writes `Rational(90000, 1)`, numerator first), which is NOT the
rational 1/90000 the claim states: cross-multiplied, 90000·90000 ≠ 1·1.  The
code transposes the intended MPEG fallback time base. -/
theorem C2_default_time_base_inverted :
    (∃ r, Renderer.new "out.mp4" 16 16 (Rational.mk 30 1) frame0 frame0 false oracle_ok
        = Except.ok r ∧ r.stream_time_base = Rational.mk 1 15360) ∧
    (∃ r, Renderer.new "out.mp4" 16 16 (Rational.mk 30 1) frame0 frame0 false oracle_nostream
        = Except.ok r ∧ r.stream_time_base = Rational.mk 90000 1 ∧
        r.stream_time_base.num * 90000 ≠ r.stream_time_base.den * 1) := by
  exact ⟨⟨_, rfl, rfl⟩, ⟨_, rfl, rfl, by decide⟩⟩

/-! ### C3 -/

/-- C3: `send_frame` advances the session's frame index by exactly 1 iff it
returns success; on encoder rejection or packet-write failure it returns
failure with the frame index unchanged; the index never decreases; and a
freshly opened session starts at frame index 0. -/
theorem C3_frame_index_advance_iff_success (r : Renderer) (b s : Bool)
    (d : List (Packet × Bool)) (e : RecvErr) :
    ((r.send_frame b s d e).2.1 = true ↔
      ((r.send_frame b s d e).1).frame_index = r.frame_index + 1) ∧
    ((r.send_frame b s d e).2.1 = false →
      ((r.send_frame b s d e).1).frame_index = r.frame_index) ∧
    r.frame_index ≤ ((r.send_frame b s d e).1).frame_index ∧
    (∀ f w h fr fa fb p o r0, Renderer.new f w h fr fa fb p o = Except.ok r0 →
      r0.frame_index = 0) := by
  refine ⟨?_, ?_, ?_, ?_⟩
  · cases b <;> cases s <;> rcases hd : (drain_write d).1 <;>
      simp [Renderer.send_frame, hd]
  · cases b <;> cases s <;> rcases hd : (drain_write d).1 <;>
      simp [Renderer.send_frame, hd]
  · cases b <;> cases s <;> rcases hd : (drain_write d).1 <;>
      simp [Renderer.send_frame, hd]
  · intro f w h fr fa fb p o r0 hok
    unfold Renderer.new at hok
    rcases o with ⟨o1, o2, o3, o4, o5, o6, o7, o8, o9⟩
    cases o1 <;> cases o3 <;> cases o4 <;> cases o5 <;> cases o6 <;> cases o7 <;>
      cases o8 <;> simp_all <;> exact hok ▸ rfl

/-- C3 (witness): a successful submission on a concrete session advances the
index by exactly one. -/
theorem C3_frame_index_advance_iff_success_witness :
    (renderer_fine.send_frame false true [] RecvErr.again).2.1 = true ∧
    ((renderer_fine.send_frame false true [] RecvErr.again).1).frame_index
      = renderer_fine.frame_index + 1 :=
  ⟨by decide,
   (C3_frame_index_advance_iff_success renderer_fine false true [] RecvErr.again).1.mp
     (by decide)⟩

/-! ### C5 -/

/-- C5: AliasedFrame round trip.  `JavaFrame::new` records the frame object's
three self-owned plane pointers in `original_yuv` and then overwrites
`data[0..2]` with the caller's buffer addresses (the model moves pointers
only — no pixel bytes exist to copy); after `drop` the three plane pointers
equal exactly the recorded original pointers, and (since the caller's buffers
are distinct from the frame's own allocations) no foreign buffer address
survives in any plane pointer past the drop. -/
theorem C5_aliased_frame_round_trip (w h : Nat) (y u v : Ptr) (alloc : Ptr × Ptr × Ptr)
    (hy1 : y ≠ alloc.1) (hy2 : y ≠ alloc.2.1) (hy3 : y ≠ alloc.2.2)
    (hu1 : u ≠ alloc.1) (hu2 : u ≠ alloc.2.1) (hu3 : u ≠ alloc.2.2)
    (hv1 : v ≠ alloc.1) (hv2 : v ≠ alloc.2.1) (hv3 : v ≠ alloc.2.2) :
    let f := JavaFrame.new w h y u v alloc
    f.original_yuv = alloc ∧
    f.av_frame.data0 = y ∧ f.av_frame.data1 = u ∧ f.av_frame.data2 = v ∧
    (f.drop).av_frame.data0 = alloc.1 ∧
    (f.drop).av_frame.data1 = alloc.2.1 ∧
    (f.drop).av_frame.data2 = alloc.2.2 ∧
    (f.drop).av_frame.data0 ≠ y ∧ (f.drop).av_frame.data0 ≠ u ∧
    (f.drop).av_frame.data0 ≠ v ∧
    (f.drop).av_frame.data1 ≠ y ∧ (f.drop).av_frame.data1 ≠ u ∧
    (f.drop).av_frame.data1 ≠ v ∧
    (f.drop).av_frame.data2 ≠ y ∧ (f.drop).av_frame.data2 ≠ u ∧
    (f.drop).av_frame.data2 ≠ v :=
  ⟨rfl, rfl, rfl, rfl, rfl, rfl, rfl,
   hy1.symm, hu1.symm, hv1.symm,
   hy2.symm, hu2.symm, hv2.symm,
   hy3.symm, hu3.symm, hv3.symm⟩

/-- C5 (witness): the round trip at concrete distinct addresses. -/
theorem C5_aliased_frame_round_trip_witness :
    let f := JavaFrame.new 16 16 101 102 103 (11, 12, 13)
    f.original_yuv = (11, 12, 13) ∧
    f.av_frame.data0 = 101 ∧ f.av_frame.data1 = 102 ∧ f.av_frame.data2 = 103 ∧
    (f.drop).av_frame.data0 = 11 ∧
    (f.drop).av_frame.data1 = 12 ∧
    (f.drop).av_frame.data2 = 13 ∧
    (f.drop).av_frame.data0 ≠ 101 ∧ (f.drop).av_frame.data0 ≠ 102 ∧
    (f.drop).av_frame.data0 ≠ 103 ∧
    (f.drop).av_frame.data1 ≠ 101 ∧ (f.drop).av_frame.data1 ≠ 102 ∧
    (f.drop).av_frame.data1 ≠ 103 ∧
    (f.drop).av_frame.data2 ≠ 101 ∧ (f.drop).av_frame.data2 ≠ 102 ∧
    (f.drop).av_frame.data2 ≠ 103 :=
  C5_aliased_frame_round_trip 16 16 101 102 103 (11, 12, 13)
    (by decide) (by decide) (by decide) (by decide) (by decide) (by decide)
    (by decide) (by decide) (by decide)

/-! ### Drain-loop characterizations -/

/-- The per-frame drain loop succeeds iff every write succeeded, and the
container receives the packets up to the first write failure, each tagged
with stream 0. -/
theorem drain_write_eq (l : List (Packet × Bool)) :
    drain_write l = (l.all (fun x => x.2),
      (l.takeWhile (fun x => x.2)).map (fun x => x.1.set_stream 0)) := by
  induction l with
  | nil => rfl
  | cons hd tl ih =>
    rcases hd with ⟨p, w⟩
    cases w <;> simp [drain_write, ih, List.takeWhile_cons]

/-- The finish-time drain loop succeeds iff every write succeeded, and the
container receives the packets up to the first write failure exactly as they
were received from the encoder (no stream tagging). -/
theorem finish_drain_eq (l : List (Packet × Bool)) :
    finish_drain l = (l.all (fun x => x.2),
      (l.takeWhile (fun x => x.2)).map (fun x => x.1)) := by
  induction l with
  | nil => rfl
  | cons hd tl ih =>
    rcases hd with ⟨p, w⟩
    cases w <;> simp [finish_drain, ih, List.takeWhile_cons]

/-! ### C4 -/

/-- C4 (counterexample): the claim that `finish` drains "exactly as the
per-frame drain step does — tagging each drained packet with the video stream
index before writing it" is false: `finish_render` performs no `set_stream`.
A packet handed over by the encoder with stream index 7 is written with
stream index 7 during finish (first conjunct), while the per-frame drain
would have written it tagged with stream 0 (second conjunct). -/
theorem C4_counterexample :
    ((renderer_fine.finish_render true [(Packet.mk 7 42, true)] true).written.all
      (fun p => p.stream_index = 0)) = false ∧
    ((drain_write [(Packet.mk 7 42, true)]).2.all
      (fun p => p.stream_index = 0)) = true := by
  decide

/-- C4 (amended): `finish_render` first sends end-of-stream to the encoder —
if that fails nothing is drained and no trailer is attempted — then drains
all remaining packets as the per-frame drain step does except that it writes
each drained packet into the container exactly as received (it does not
re-tag packets with the video stream index), with write failures propagated
as the overall error, and only after the whole drain succeeds does it attempt
the container trailer, whose failure is also propagated. -/
theorem C4_finish_order_and_drain (r : Renderer) (d : List (Packet × Bool)) (t : Bool) :
    r.finish_render false d t = ⟨false, [], false⟩ ∧
    (r.finish_render true d t).written = (d.takeWhile (fun x => x.2)).map (fun x => x.1) ∧
    (r.finish_render true d t).ok = (d.all (fun x => x.2) && t) ∧
    (r.finish_render true d t).trailer_attempted = d.all (fun x => x.2) := by
  have hfd := finish_drain_eq d
  refine ⟨rfl, ?_, ?_, ?_⟩ <;>
    rcases hb : d.all (fun x => x.2) with _ | _ <;>
      simp [Renderer.finish_render, hfd, hb]

/-! ### C6 -/

/-- Library responses where the encoder refuses to open with the profile's
dictionary. -/
def oracle_badopen : NewOracle := { oracle_ok with open_with := false }

/-- C6: if any fallible step of session creation fails (container open,
stream add, encoder fetch, encoder open, parameter re-fetch, header write),
`startEncode` stores `None` and returns false: no partial session is
retained, whatever the registry held before. -/
theorem C6_start_failure_leaves_empty (prev : Option Renderer) (file : String)
    (w h : Nat) (fps : Int) (ya ua va yb ub vb : Ptr) (aa ab : Ptr × Ptr × Ptr)
    (p : Bool) (o : NewOracle)
    (hfail : o.open_output = false ∨ o.add_stream = false ∨ o.enc_video0 = false ∨
      o.open_with = false ∨ o.enc_video1 = false ∨ o.enc_video2 = false ∨
      o.write_header = false) :
    Java_me_aris_recordingmod_RendererKt_startEncode prev file w h fps
      ya ua va yb ub vb aa ab p o = (none, false) := by
  unfold Java_me_aris_recordingmod_RendererKt_startEncode Renderer.new
  rcases o with ⟨o1, o2, o3, o4, o5, o6, o7, o8, o9⟩
  cases o1 <;> cases o3 <;> cases o4 <;> cases o5 <;> cases o6 <;> cases o7 <;>
    cases o8 <;> simp_all [Except.toOption]

/-- C6 (witness): an encoder-open failure leaves the registry Empty. -/
theorem C6_start_failure_leaves_empty_witness :
    Java_me_aris_recordingmod_RendererKt_startEncode none "out.mp4" 16 16 30
      101 102 103 104 105 106 (11, 12, 13) (14, 15, 16) false oracle_badopen
      = (none, false) :=
  C6_start_failure_leaves_empty none "out.mp4" 16 16 30 101 102 103 104 105 106
    (11, 12, 13) (14, 15, 16) false oracle_badopen
    (Or.inr (Or.inr (Or.inr (Or.inl (by decide)))))

/-! ### C7 -/

/-- C7: after `finishEncode` returns, the registry slot is Empty — for every
prior registry state and every library outcome, including eof, packet-write
and trailer failures: the slot is cleared unconditionally. -/
theorem C7_finish_clears_registry (reg : Option Renderer) (eof_ok : Bool)
    (d : List (Packet × Bool)) (t : Bool) :
    (Java_me_aris_recordingmod_RendererKt_finishEncode reg eof_ok d t).1 = none := by
  cases reg <;> rfl

/-! ### C8 -/

/-- C8: `sendFrame` while the registry is Empty returns success (`true`) and
performs no side effects: the registry stays Empty and no packet is written
into any container. -/
theorem C8_submit_no_session_noop (b s : Bool) (d : List (Packet × Bool)) (e : RecvErr) :
    Java_me_aris_recordingmod_RendererKt_sendFrame none b s d e = (none, true, []) :=
  rfl

/-! ### C9 -/

/-- C9: the dictionary the encoder is opened with is `encoder_opts is_proxy`,
a function of the selected profile alone — no other argument of session open
influences it; the profiles form a closed set of exactly two distinct named
option sets, each a fixed triplet (speed preset, chroma profile, CRF quality
value); and the option set recorded at open is never mutated by a
submission. -/
theorem C9_opts_profile_only :
    (∀ f w h fr fa fb p o r0, Renderer.new f w h fr fa fb p o = Except.ok r0 →
      r0.encoder.opts = encoder_opts p) ∧
    (∀ p, encoder_opts p = OPTS ∨ encoder_opts p = proxy_opts) ∧
    OPTS.map Prod.fst = ["preset", "profile", "crf"] ∧
    proxy_opts.map Prod.fst = ["preset", "profile", "crf"] ∧
    OPTS ≠ proxy_opts ∧
    (∀ r b s d e, ((Renderer.send_frame r b s d e).1).encoder = r.encoder) := by
  refine ⟨?_, ?_, rfl, rfl, by decide, ?_⟩
  · intro f w h fr fa fb p o r0 hok
    unfold Renderer.new at hok
    rcases o with ⟨o1, o2, o3, o4, o5, o6, o7, o8, o9⟩
    cases o1 <;> cases o3 <;> cases o4 <;> cases o5 <;> cases o6 <;> cases o7 <;>
      cases o8 <;> simp_all <;> exact hok ▸ rfl
  · intro p
    cases p
    · exact Or.inl rfl
    · exact Or.inr rfl
  · intro r b s d e
    cases b <;> cases s <;> rcases hd : (drain_write d).1 <;>
      simp [Renderer.send_frame, hd]

/-- C9 (witness): a proxy session is opened with the proxy triplet. -/
theorem C9_opts_profile_only_witness :
    ∃ r0, Renderer.new "out.mp4" 16 16 (Rational.mk 30 1) frame0 frame0 true oracle_ok
        = Except.ok r0 ∧ r0.encoder.opts = encoder_opts true :=
  ⟨_, rfl, C9_opts_profile_only.1 "out.mp4" 16 16 (Rational.mk 30 1) frame0 frame0
    true oracle_ok _ rfl⟩

/-! ### C10 -/

/-- C10: the drain loop of `send_frame` stops at the first `receive_packet`
call that returns any error, and the submission then reports success: with
the frame accepted and every drained packet written, the result is `true`
whatever error ended the drain — a genuine encoder error while draining is
indistinguishable from "no packet ready" — and the entire result is
independent of which error it was. -/
theorem C10_drain_error_ignored (r : Renderer) (b : Bool)
    (d : List (Packet × Bool)) (e : RecvErr)
    (hw : d.all (fun x => x.2) = true) :
    (r.send_frame b true d e).2.1 = true ∧
    (∀ e2, r.send_frame b true d e = r.send_frame b true d e2) := by
  have hd : (drain_write d).1 = true := by
    rw [drain_write_eq]
    exact hw
  constructor
  · cases b <;> simp [Renderer.send_frame, hd]
  · intro e2
    rfl

/-- C10 (witness): a drain ended by a genuine encoder error still yields a
successful submission. -/
theorem C10_drain_error_ignored_witness :
    (renderer_fine.send_frame true true [(Packet.mk 0 5, true)] RecvErr.other).2.1
      = true :=
  (C10_drain_error_ignored renderer_fine true [(Packet.mk 0 5, true)] RecvErr.other
    (by decide)).1

end RecordingMod
